import Mathlib

/-!
Shallow embedding of the grasp tutoring system's progression engine and turn
orchestration (virtuelleakademie/grasp), translated from:

  * src/tutor/models/state.py        (IterationState, ProgressionState)
  * src/tutor/models/context.py      (TutorContext and its curriculum accessors)
  * src/tutor/models/responses.py    (Understanding and its empty value)
  * src/tutor/services/progression_service.py (ProgressionService)
  * src/tutor/services/tutor_coordinator.py   (TutorCoordinator, state effects)
  * src/tutor/reasoning.py           (llm_structured fallback chain)

Python integers are modelled as Int where a value could in principle go
negative or is compared with a signed index (progression pointers, /goto
targets), and as Nat for the interaction counters, which are only ever
incremented from 0 or reset to 0. Python list indexing `l[i]` guarded by a
`0 <= i < len(l)` bounds check is modelled by `pyGet`; an unguarded `l[i]`
(which wraps a negative index, Python semantics) by `pyIndex`. LLM calls are
modelled by their observable outcome: `some v` for a call that parses,
`none` for any failure (timeout, malformed output, backend error).
-/

namespace Grasp

/-- Python bounds-checked list access: `if 0 <= i < len l then some l[i] else none`.
Matches the `0 <= idx < len(...)` guards of context.py and the
`0 <= i` / `i < len` guard pairs of progression_service.py. -/
def pyGet {α : Type} (l : List α) (i : Int) : Option α :=
  if 0 ≤ i then l.get? i.toNat else none

/-- Python unguarded list indexing `l[i]`: a negative index wraps once around
the end of the list; an index still out of range raises IndexError, modelled
here as `none`. -/
def pyIndex {α : Type} (l : List α) (i : Int) : Option α :=
  if 0 ≤ i then l.get? i.toNat
  else if 0 ≤ i + l.length then l.get? (i + l.length).toNat
  else none

/-- From src/tutor/exercise_model.py: class Step. -/
structure Step where
  step_number : Nat
  guiding_question : String
  guiding_answer : String
  image : Option String
deriving Repr, DecidableEq

/-- From src/tutor/exercise_model.py: class Checkpoint. -/
structure Checkpoint where
  checkpoint_number : Nat
  main_question : String
  main_answer : String
  image_solution : Option String
  steps : List Step
deriving Repr, DecidableEq

/-- From src/tutor/exercise_model.py: class Exercise (metadata omitted: no
claim touches it). -/
structure Exercise where
  first_message : String
  end_message : String
  checkpoints : List Checkpoint
deriving Repr, DecidableEq

/-- From src/tutor/models/state.py: class IterationState (the datetime field
last_updated is omitted: it carries no control-flow information). -/
structure IterationState where
  total_interactions : Nat := 0
  step_interactions : Nat := 0
  checkpoint_interactions : Nat := 0
  finished : Bool := false
deriving Repr, DecidableEq

/-- IterationState.increment: increment all interaction counters. -/
def IterationState.increment (s : IterationState) : IterationState :=
  { s with
    total_interactions := s.total_interactions + 1
    step_interactions := s.step_interactions + 1
    checkpoint_interactions := s.checkpoint_interactions + 1 }

/-- IterationState.reset_step: reset step interactions when moving to next step. -/
def IterationState.reset_step (s : IterationState) : IterationState :=
  { s with step_interactions := 0 }

/-- IterationState.reset_checkpoint: reset checkpoint interactions (and,
through reset_step, the step interactions) when moving to next checkpoint. -/
def IterationState.reset_checkpoint (s : IterationState) : IterationState :=
  ({ s with checkpoint_interactions := 0 }).reset_step

/-- IterationState.has_step_iterations_left: step_interactions < max_step. -/
def IterationState.has_step_iterations_left (s : IterationState) (max_step : Nat) : Bool :=
  s.step_interactions < max_step

/-- IterationState.has_checkpoint_iterations_left: checkpoint_interactions < max_checkpoint. -/
def IterationState.has_checkpoint_iterations_left (s : IterationState) (max_checkpoint : Nat) : Bool :=
  s.checkpoint_interactions < max_checkpoint

/-- From src/tutor/models/state.py: class ProgressionState (exercise_id and
the datetime fields omitted: no claim touches them). -/
structure ProgressionState where
  current_checkpoint : Int := 1
  current_step : Int := 1
deriving Repr, DecidableEq

/-- ProgressionState.advance_step: current_step += 1. -/
def ProgressionState.advance_step (p : ProgressionState) : ProgressionState :=
  { p with current_step := p.current_step + 1 }

/-- ProgressionState.advance_checkpoint: current_checkpoint += 1 and
current_step = 1, unconditionally. -/
def ProgressionState.advance_checkpoint (p : ProgressionState) : ProgressionState :=
  { p with current_checkpoint := p.current_checkpoint + 1, current_step := 1 }

/-- ProgressionState.jump_to_checkpoint: current_checkpoint = checkpoint_num,
current_step = 1. -/
def ProgressionState.jump_to_checkpoint (p : ProgressionState) (checkpoint_num : Int) :
    ProgressionState :=
  { p with current_checkpoint := checkpoint_num, current_step := 1 }

/-- From src/tutor/models/responses.py: class Understanding, restricted to the
two booleans the progression logic reads (confidence_score, lists and
reasoning carry no control flow). -/
structure Understanding where
  main_question_answered : Bool := false
  guiding_question_answered : Bool := false
deriving Repr, DecidableEq

/-- Understanding.empty: both answered flags false. -/
def Understanding.empty : Understanding :=
  { main_question_answered := false, guiding_question_answered := false }

/-- From src/tutor/models/context.py: class TutorContext (conversation
history, tutor_mode and the id strings omitted: no claim touches them). -/
structure TutorContext where
  exercise : Exercise
  progression : ProgressionState
  iterations : IterationState := {}
  current_understanding : Understanding := Understanding.empty
  max_step_iterations : Nat := 2
  max_checkpoint_iterations : Nat := 6
deriving Repr, DecidableEq

/-- TutorContext.current_checkpoint property. -/
def TutorContext.current_checkpoint (c : TutorContext) : Int :=
  c.progression.current_checkpoint

/-- TutorContext.current_step property. -/
def TutorContext.current_step (c : TutorContext) : Int :=
  c.progression.current_step

/-- TutorContext.current_main_question. -/
def TutorContext.current_main_question (c : TutorContext) : String :=
  match pyGet c.exercise.checkpoints (c.current_checkpoint - 1) with
  | some checkpoint => checkpoint.main_question
  | none => "No more checkpoints available"

/-- TutorContext.current_guiding_question: the step's guiding question, the
checkpoint's main question once the step pointer is past the last step, and a
placeholder string when the checkpoint pointer is out of range. -/
def TutorContext.current_guiding_question (c : TutorContext) : String :=
  match pyGet c.exercise.checkpoints (c.current_checkpoint - 1) with
  | some checkpoint =>
    match pyGet checkpoint.steps (c.current_step - 1) with
    | some step => step.guiding_question
    | none => checkpoint.main_question
  | none => "No question available"

/-- TutorContext.current_main_answer. -/
def TutorContext.current_main_answer (c : TutorContext) : String :=
  match pyGet c.exercise.checkpoints (c.current_checkpoint - 1) with
  | some checkpoint => checkpoint.main_answer
  | none => ""

/-- TutorContext.current_guiding_answer. -/
def TutorContext.current_guiding_answer (c : TutorContext) : String :=
  match pyGet c.exercise.checkpoints (c.current_checkpoint - 1) with
  | some checkpoint =>
    match pyGet checkpoint.steps (c.current_step - 1) with
    | some step => step.guiding_answer
    | none => ""
  | none => ""

/-- TutorContext.current_image_path. -/
def TutorContext.current_image_path (c : TutorContext) : Option String :=
  match pyGet c.exercise.checkpoints (c.current_checkpoint - 1) with
  | some checkpoint =>
    match pyGet checkpoint.steps (c.current_step - 1) with
    | some step => step.image
    | none => none
  | none => none

/-- TutorContext.current_solution_image_path. -/
def TutorContext.current_solution_image_path (c : TutorContext) : Option String :=
  match pyGet c.exercise.checkpoints (c.current_checkpoint - 1) with
  | some checkpoint => checkpoint.image_solution
  | none => none

/-- TutorContext.advance_step: advance the progression pointer and reset the
step iteration counter. The understanding record is not touched. -/
def TutorContext.advance_step (c : TutorContext) : TutorContext :=
  { c with
    progression := c.progression.advance_step
    iterations := c.iterations.reset_step }

/-- TutorContext.advance_checkpoint: advance the progression pointer, reset
both iteration counters, and reset the understanding to empty. -/
def TutorContext.advance_checkpoint (c : TutorContext) : TutorContext :=
  { c with
    progression := c.progression.advance_checkpoint
    iterations := c.iterations.reset_checkpoint
    current_understanding := Understanding.empty }

/-- TutorContext.jump_to_checkpoint: jump the pointer, reset both counters,
reset the understanding. -/
def TutorContext.jump_to_checkpoint (c : TutorContext) (checkpoint_num : Int) : TutorContext :=
  { c with
    progression := c.progression.jump_to_checkpoint checkpoint_num
    iterations := c.iterations.reset_checkpoint
    current_understanding := Understanding.empty }

/-- TutorContext.is_exercise_complete. -/
def TutorContext.is_exercise_complete (c : TutorContext) : Bool :=
  (c.exercise.checkpoints.length : Int) < c.current_checkpoint || c.iterations.finished

/-- TutorContext.has_next_step: current_step <= len(checkpoint.steps), with the
checkpoint looked up under a 0 <= idx < len bounds check. -/
def TutorContext.has_next_step (c : TutorContext) : Bool :=
  match pyGet c.exercise.checkpoints (c.current_checkpoint - 1) with
  | some checkpoint => c.current_step ≤ (checkpoint.steps.length : Int)
  | none => false

/-- TutorContext.has_next_checkpoint: current_checkpoint < len(checkpoints). -/
def TutorContext.has_next_checkpoint (c : TutorContext) : Bool :=
  c.current_checkpoint < (c.exercise.checkpoints.length : Int)

namespace ProgressionService

/-- ProgressionService._has_next_step: current_step < len(checkpoint.steps)
(strict, unlike TutorContext.has_next_step). -/
def _has_next_step (c : TutorContext) : Bool :=
  match pyGet c.exercise.checkpoints (c.current_checkpoint - 1) with
  | some checkpoint => c.current_step < (checkpoint.steps.length : Int)
  | none => false

/-- ProgressionService._has_next_checkpoint: current_checkpoint < len(checkpoints). -/
def _has_next_checkpoint (c : TutorContext) : Bool :=
  c.current_checkpoint < (c.exercise.checkpoints.length : Int)

/-- ProgressionService.determine_next_action: the transition decision rule.
Debug printing of the source is omitted. -/
def determine_next_action (understanding : Understanding) (context : TutorContext) : String :=
  let iterations := context.iterations
  if understanding.main_question_answered
      || !(iterations.has_checkpoint_iterations_left context.max_checkpoint_iterations) then
    if _has_next_checkpoint context then "advance_checkpoint" else "finish"
  else if understanding.guiding_question_answered
      || !(iterations.has_step_iterations_left context.max_step_iterations) then
    if _has_next_step context then "advance_step" else "continue_question"
  else
    "continue_question"

/-- The dict get_next_checkpoint_content builds for the next checkpoint. -/
structure CheckpointContent where
  main_question : String
  main_answer : String
  first_guiding_question : Option String
  first_image_path : Option String
  solution_image_path : Option String
  checkpoint_number : Int
deriving Repr, DecidableEq

/-- ProgressionService.get_next_checkpoint_content: content of the checkpoint
after the current one, None when the current checkpoint is the last. -/
def get_next_checkpoint_content (context : TutorContext) : Option CheckpointContent :=
  if context.current_checkpoint < (context.exercise.checkpoints.length : Int) then
    (pyIndex context.exercise.checkpoints context.current_checkpoint).map fun checkpoint =>
      let first_step := checkpoint.steps.head?
      { main_question := checkpoint.main_question
        main_answer := checkpoint.main_answer
        first_guiding_question := first_step.map Step.guiding_question
        first_image_path := first_step.bind Step.image
        solution_image_path := checkpoint.image_solution
        checkpoint_number := context.current_checkpoint + 1 }
  else none

end ProgressionService

namespace TutorCoordinator

/-- TutorCoordinator._evaluate_understanding: the understanding agent call
wrapped in try/except — `some u` when the agent run succeeds, and on any
exception the coordinator substitutes Understanding.empty(). -/
def _evaluate_understanding (result : Option Understanding) : Understanding :=
  match result with
  | some understanding => understanding
  | none => Understanding.empty

/-- TutorCoordinator._create_response, projected to its effect on the session
context together with the action field of the emitted TutorResponse. The
feedback/solution text assembly is omitted: it mutates nothing. In the
advance_checkpoint branch the context is advanced only when
get_next_checkpoint_content returns content; otherwise — and in the finish
branch — the iteration state's finished flag is set and the emitted action
is "finish". -/
def _create_response_state (action : String) (context : TutorContext) : TutorContext × String :=
  if action = "continue_question" then
    (context, action)
  else if action = "advance_step" then
    (context.advance_step, action)
  else if action = "advance_checkpoint" then
    match ProgressionService.get_next_checkpoint_content context with
    | some _ => (context.advance_checkpoint, action)
    | none => ({ context with iterations := { context.iterations with finished := true } }, "finish")
  else
    ({ context with iterations := { context.iterations with finished := true } }, "finish")

/-- TutorCoordinator.handle_goto_command, projected to its effect on the
session context together with whether the out-of-range error message was
emitted: `(context, true)` for a target outside [1, len(checkpoints)]
(no mutation), `(context.jump_to_checkpoint n, false)` otherwise. -/
def handle_goto_command (checkpoint_num : Int) (context : TutorContext) : TutorContext × Bool :=
  if checkpoint_num < 1 ∨ checkpoint_num > (context.exercise.checkpoints.length : Int) then
    (context, true)
  else
    (context.jump_to_checkpoint checkpoint_num, false)

end TutorCoordinator

/-- The fallback loop of llm_structured (src/tutor/reasoning.py): try the
models in order, return the first parsed output, count every attempt made;
when every model fails, fall back to the schema's empty value after trying
them all. Each list entry is one model's outcome: `some v` a parsed result,
`none` any failure. -/
def llm_attempts {α : Type} (models : List (Option α)) (default : α) : α × Nat :=
  match models with
  | [] => (default, 0)
  | some output :: _ => (output, 1)
  | none :: rest =>
    let r := llm_attempts rest default
    (r.1, r.2 + 1)

/-- llm_structured (src/tutor/reasoning.py): when the session's iteration
state is finished, return the schema's empty value with no attempt made;
otherwise run the fallback loop over the candidate models. Returns the value
produced together with the number of backend attempts made. -/
def llm_structured {α : Type} (finished : Bool) (models : List (Option α)) (default : α) :
    α × Nat :=
  if finished then (default, 0) else llm_attempts models default

/-! Concrete curricula and session contexts used by counterexamples and
witnesses. -/

/-- A first sample step. -/
def step1 : Step :=
  { step_number := 1, guiding_question := "G1", guiding_answer := "A1", image := none }

/-- A second sample step. -/
def step2 : Step :=
  { step_number := 2, guiding_question := "G2", guiding_answer := "A2", image := none }

/-- A checkpoint with a single step. -/
def cpOneStep : Checkpoint :=
  { checkpoint_number := 1, main_question := "M1", main_answer := "MA1",
    image_solution := none, steps := [step1] }

/-- A checkpoint with two steps. -/
def cpTwoSteps : Checkpoint :=
  { checkpoint_number := 1, main_question := "M1", main_answer := "MA1",
    image_solution := none, steps := [step1, step2] }

/-- A curriculum of one checkpoint with one step. -/
def exerciseOne : Exercise :=
  { first_message := "hello", end_message := "bye", checkpoints := [cpOneStep] }

/-- A curriculum of two checkpoints; the first has two steps. -/
def exerciseTwo : Exercise :=
  { first_message := "hello", end_message := "bye",
    checkpoints := [cpTwoSteps, { cpOneStep with checkpoint_number := 2 }] }

/-- A curriculum of three checkpoints. -/
def exerciseThree : Exercise :=
  { first_message := "hello", end_message := "bye",
    checkpoints := [cpTwoSteps, { cpOneStep with checkpoint_number := 2 },
                    { cpOneStep with checkpoint_number := 3 }] }

/-- Fresh session on the one-checkpoint curriculum. -/
def ctxOneStep : TutorContext :=
  { exercise := exerciseOne, progression := { current_checkpoint := 1, current_step := 1 } }

/-- Fresh session on the two-checkpoint curriculum. -/
def ctxTwo : TutorContext :=
  { exercise := exerciseTwo, progression := { current_checkpoint := 1, current_step := 1 } }

/-- Session on the two-checkpoint curriculum with the checkpoint budget
exhausted (checkpoint_interactions = max_checkpoint_iterations = 6). -/
def ctxBudget : TutorContext :=
  { exercise := exerciseTwo, progression := { current_checkpoint := 1, current_step := 1 },
    iterations := { total_interactions := 6, step_interactions := 1, checkpoint_interactions := 6 } }

/-- Session on the three-checkpoint curriculum standing on the last checkpoint. -/
def ctxThird : TutorContext :=
  { exercise := exerciseThree, progression := { current_checkpoint := 3, current_step := 1 } }

/-- Session whose checkpoint pointer (2) exceeds the one-checkpoint curriculum. -/
def ctxPastEnd : TutorContext :=
  { exercise := exerciseOne, progression := { current_checkpoint := 2, current_step := 1 } }

/-- Session on the two-checkpoint curriculum whose stored understanding has
the guiding question answered. -/
def ctxGuiding : TutorContext :=
  { exercise := exerciseTwo, progression := { current_checkpoint := 1, current_step := 1 },
    current_understanding := { main_question_answered := false, guiding_question_answered := true } }

/-- Helper: when every model fails, the fallback loop tries them all and
returns the default. -/
theorem llm_attempts_all_none {α : Type} (models : List (Option α)) :
    ∀ default : α, (∀ a ∈ models, a = none) →
      llm_attempts models default = (default, models.length) := by
  induction models with
  | nil => intro d _; rfl
  | cons a rest ih =>
    intro d h
    have ha : a = none := h a (List.mem_cons_self a rest)
    subst ha
    simp [llm_attempts, ih d fun b hb => h b (List.mem_cons_of_mem _ hb)]

/-- Helper: when every model before a successful one fails, the fallback loop
returns that model's output after exactly one attempt per model so far. -/
theorem llm_attempts_first_success {α : Type} (pre : List (Option α)) :
    ∀ (rest : List (Option α)) (v default : α), (∀ a ∈ pre, a = none) →
      llm_attempts (pre ++ some v :: rest) default = (v, pre.length + 1) := by
  induction pre with
  | nil => intro rest v d _; rfl
  | cons a pre ih =>
    intro rest v d h
    have ha : a = none := h a (List.mem_cons_self a pre)
    subst ha
    simp [llm_attempts, ih rest v d fun b hb => h b (List.mem_cons_of_mem _ hb)]

/-- C3: llm_structured tries the candidate models in the given order and
returns the first parsed result, with every earlier (failing) model tried
exactly once and no later one touched; when all models fail it returns the
schema's default after trying them all, raising nothing; and when the
session's iteration state is finished it returns the default with zero
backend attempts. -/
theorem llm_structured_fallback_spec (α : Type) (finished : Bool)
    (models : List (Option α)) (default : α) :
    (finished = true → llm_structured finished models default = (default, 0))
    ∧ (finished = false → (∀ a ∈ models, a = none) →
        llm_structured finished models default = (default, models.length))
    ∧ (finished = false → ∀ (pre rest : List (Option α)) (v : α),
        models = pre ++ some v :: rest → (∀ a ∈ pre, a = none) →
        llm_structured finished models default = (v, pre.length + 1)) := by
  refine ⟨?_, ?_, ?_⟩
  · intro h
    subst h
    rfl
  · intro h hall
    subst h
    simpa [llm_structured] using llm_attempts_all_none models default hall
  · intro h pre rest v hm hpre
    subst h
    subst hm
    simpa [llm_structured] using llm_attempts_first_success pre rest v default hpre

/-- Helper: for a checkpoint pointer of at least 1, get_next_checkpoint_content
is none exactly when the current checkpoint is the last one (or beyond). -/
theorem get_next_checkpoint_content_none_iff (c : TutorContext)
    (h : 1 ≤ c.current_checkpoint) :
    (ProgressionService.get_next_checkpoint_content c = none
      ↔ (c.exercise.checkpoints.length : Int) ≤ c.current_checkpoint) := by
  unfold ProgressionService.get_next_checkpoint_content
  split
  · next hlt =>
    rw [Option.map_eq_none']
    constructor
    · intro hnone
      exfalso
      unfold pyIndex at hnone
      rw [if_pos (by omega : (0 : Int) ≤ c.current_checkpoint)] at hnone
      rw [List.get?_eq_none] at hnone
      omega
    · intro hle
      exfalso
      omega
  · next hge =>
    exact iff_of_true rfl (not_lt.mp hge)

/-- C4 counterexample: on the one-checkpoint curriculum, where no further
checkpoint exists, advance_checkpoint still advances the pointer past the end
(to 2) instead of setting finished, and resets the step pointer to 1 — the
first step's position, not a "no step yet issued" position. -/
theorem advance_checkpoint_claim_cex :
    TutorContext.has_next_checkpoint ctxOneStep = false
    ∧ (TutorContext.advance_checkpoint ctxOneStep).progression.current_checkpoint = 2
    ∧ (TutorContext.advance_checkpoint ctxOneStep).progression.current_step = 1
    ∧ (TutorContext.advance_checkpoint ctxOneStep).iterations.finished = false :=
  ⟨rfl, rfl, rfl, rfl⟩

/-- C4 amended: advance_checkpoint unconditionally increments the checkpoint
pointer and resets the step pointer to 1, and never touches finished; the
finished flag is set by the coordinator's response creation, exactly when it
emits a finish response, which for the advance_checkpoint action (and a
pointer of at least 1) happens exactly when no further checkpoint exists. -/
theorem advance_checkpoint_finished_spec (c : TutorContext) :
    (TutorContext.advance_checkpoint c).progression.current_checkpoint
        = c.progression.current_checkpoint + 1
    ∧ (TutorContext.advance_checkpoint c).progression.current_step = 1
    ∧ (TutorContext.advance_checkpoint c).iterations.finished = c.iterations.finished
    ∧ (∀ action : String,
        ((TutorCoordinator._create_response_state action c).1.iterations.finished = true
          ↔ (c.iterations.finished = true
              ∨ (TutorCoordinator._create_response_state action c).2 = "finish")))
    ∧ (1 ≤ c.current_checkpoint →
        ((TutorCoordinator._create_response_state "advance_checkpoint" c).2 = "finish"
          ↔ ProgressionService._has_next_checkpoint c = false)) := by
  refine ⟨rfl, rfl, rfl, ?_, ?_⟩
  · intro action
    unfold TutorCoordinator._create_response_state
    split_ifs with h1 h2 h3
    · subst h1
      have hne : ¬(("continue_question" : String) = "finish") := by decide
      simp [hne]
    · subst h2
      have hne : ¬(("advance_step" : String) = "finish") := by decide
      simp [TutorContext.advance_step, IterationState.reset_step, hne]
    · subst h3
      cases hgc : ProgressionService.get_next_checkpoint_content c
      · simp
      · have hne : ¬(("advance_checkpoint" : String) = "finish") := by decide
        simp [TutorContext.advance_checkpoint, IterationState.reset_checkpoint,
              IterationState.reset_step, hne]
    · simp
  · intro hge1
    unfold TutorCoordinator._create_response_state
    rw [if_neg (show ¬(("advance_checkpoint" : String) = "continue_question") by decide),
        if_neg (show ¬(("advance_checkpoint" : String) = "advance_step") by decide),
        if_pos rfl]
    cases hgc : ProgressionService.get_next_checkpoint_content c
    · have hle := (get_next_checkpoint_content_none_iff c hge1).mp hgc
      have hf : ProgressionService._has_next_checkpoint c = false := by
        simp [ProgressionService._has_next_checkpoint]
        omega
      simp [hf]
    · have hlt : c.current_checkpoint < (c.exercise.checkpoints.length : Int) := by
        by_contra hcon
        rw [not_lt] at hcon
        rw [(get_next_checkpoint_content_none_iff c hge1).mpr hcon] at hgc
        exact Option.noConfusion hgc
      have ht : ProgressionService._has_next_checkpoint c = true := by
        simp [ProgressionService._has_next_checkpoint, hlt]
      have hne : ¬(("advance_checkpoint" : String) = "finish") := by decide
      simp [ht, hne]

/-- C5 counterexample: on the one-checkpoint curriculum with a single step and
the step pointer at 1 (so current step = number of steps), the two
implementations disagree: TutorContext.has_next_step is true but
ProgressionService._has_next_step — the one the transition decision consults —
is false, refuting the claim that both return true iff current step is at most
the number of steps. -/
theorem has_next_step_claim_cex :
    ctxOneStep.current_step = 1
    ∧ cpOneStep.steps.length = 1
    ∧ TutorContext.has_next_step ctxOneStep = true
    ∧ ProgressionService._has_next_step ctxOneStep = false :=
  ⟨rfl, rfl, rfl, rfl⟩

/-- C5 amended: with the checkpoint pointer in range, TutorContext.has_next_step
is true iff the current step is at most the number of steps of the current
checkpoint, while ProgressionService._has_next_step is true iff the current
step is strictly below the number of steps; with the pointer out of range both
are false. -/
theorem has_next_step_spec (c : TutorContext) :
    (TutorContext.has_next_step c = true
      ↔ ∃ cp, pyGet c.exercise.checkpoints (c.current_checkpoint - 1) = some cp
          ∧ c.current_step ≤ (cp.steps.length : Int))
    ∧ (ProgressionService._has_next_step c = true
      ↔ ∃ cp, pyGet c.exercise.checkpoints (c.current_checkpoint - 1) = some cp
          ∧ c.current_step < (cp.steps.length : Int)) := by
  constructor
  · unfold TutorContext.has_next_step
    cases h : pyGet c.exercise.checkpoints (c.current_checkpoint - 1) <;> simp [h]
  · unfold ProgressionService._has_next_step
    cases h : pyGet c.exercise.checkpoints (c.current_checkpoint - 1) <;> simp [h]

/-- C6 counterexample: on the three-checkpoint curriculum with the pointer on
checkpoint 3 (= the number of checkpoints, not len+1), both implementations of
has_next_checkpoint are already false, refuting the claim that the value is
true at pointer = length and turns false only at length + 1. -/
theorem has_next_checkpoint_claim_cex :
    ctxThird.current_checkpoint = 3
    ∧ exerciseThree.checkpoints.length = 3
    ∧ TutorContext.has_next_checkpoint ctxThird = false
    ∧ ProgressionService._has_next_checkpoint ctxThird = false :=
  ⟨rfl, rfl, rfl, rfl⟩

/-- C6 amended: both implementations agree and are true iff the current
checkpoint is strictly below the number of checkpoints; equivalently they are
false exactly for pointers at or past the number of checkpoints, so already at
pointer = len(curriculum). -/
theorem has_next_checkpoint_spec (c : TutorContext) :
    (TutorContext.has_next_checkpoint c = true
      ↔ c.current_checkpoint < (c.exercise.checkpoints.length : Int))
    ∧ TutorContext.has_next_checkpoint c = ProgressionService._has_next_checkpoint c
    ∧ (TutorContext.has_next_checkpoint c = false
      ↔ (c.exercise.checkpoints.length : Int) ≤ c.current_checkpoint) := by
  refine ⟨?_, rfl, ?_⟩
  · simp [TutorContext.has_next_checkpoint]
  · simp [TutorContext.has_next_checkpoint, not_lt]

/-- C7 counterexample: with the checkpoint pointer (2) past the one-checkpoint
curriculum, every accessor returns its placeholder or empty value instead of
failing with an OutOfRange error — the source has no raising path at all. -/
theorem context_accessors_claim_cex :
    (exerciseOne.checkpoints.length : Int) < ctxPastEnd.current_checkpoint
    ∧ TutorContext.current_main_question ctxPastEnd = "No more checkpoints available"
    ∧ TutorContext.current_guiding_question ctxPastEnd = "No question available"
    ∧ TutorContext.current_main_answer ctxPastEnd = ""
    ∧ TutorContext.current_guiding_answer ctxPastEnd = ""
    ∧ TutorContext.current_image_path ctxPastEnd = none
    ∧ TutorContext.current_solution_image_path ctxPastEnd = none :=
  ⟨by decide, rfl, rfl, rfl, rfl, rfl, rfl⟩

/-- C7 amended: the accessors are total: when the checkpoint pointer exceeds
the curriculum length they return fixed placeholder/empty values (no error is
raised), and when the pointer is in bounds but the step-level entry is absent
the step-level accessors return the fall-back values (main question, empty
string, no image). -/
theorem context_accessors_total (c : TutorContext) :
    ((c.exercise.checkpoints.length : Int) < c.current_checkpoint →
        TutorContext.current_main_question c = "No more checkpoints available"
        ∧ TutorContext.current_guiding_question c = "No question available"
        ∧ TutorContext.current_main_answer c = ""
        ∧ TutorContext.current_guiding_answer c = ""
        ∧ TutorContext.current_image_path c = none
        ∧ TutorContext.current_solution_image_path c = none)
    ∧ (∀ cp, pyGet c.exercise.checkpoints (c.current_checkpoint - 1) = some cp →
        pyGet cp.steps (c.current_step - 1) = none →
        TutorContext.current_guiding_question c = cp.main_question
        ∧ TutorContext.current_guiding_answer c = ""
        ∧ TutorContext.current_image_path c = none) := by
  constructor
  · intro hgt
    have hnone : pyGet c.exercise.checkpoints (c.current_checkpoint - 1) = none := by
      unfold pyGet
      split
      · next h0 =>
        rw [List.get?_eq_none]
        omega
      · rfl
    refine ⟨?_, ?_, ?_, ?_, ?_, ?_⟩ <;>
      simp [TutorContext.current_main_question, TutorContext.current_guiding_question,
            TutorContext.current_main_answer, TutorContext.current_guiding_answer,
            TutorContext.current_image_path, TutorContext.current_solution_image_path, hnone]
  · intro cp hcp hstep
    refine ⟨?_, ?_, ?_⟩ <;>
      simp [TutorContext.current_guiding_question, TutorContext.current_guiding_answer,
            TutorContext.current_image_path, hcp, hstep]

/-- C8 counterexample: on an advance_step transition the session understanding
is left untouched: with the stored guiding-question-answered flag true before
the transition, it is still true afterwards (the step pointer does advance),
refuting the claim that the coordinator clears the flag. -/
theorem advance_step_claim_cex :
    ctxGuiding.current_understanding.guiding_question_answered = true
    ∧ (TutorCoordinator._create_response_state "advance_step"
        ctxGuiding).1.current_understanding.guiding_question_answered = true
    ∧ (TutorCoordinator._create_response_state "advance_step"
        ctxGuiding).1.progression.current_step = 2 :=
  ⟨rfl, rfl, rfl⟩

/-- C8 amended: on an advance_step transition the orchestrator increments the
step pointer by one and resets the step iteration counter to zero, leaving the
checkpoint pointer, the checkpoint and total counters, the finished flag and
the whole stored Understanding (both answered flags included) unchanged. -/
theorem advance_step_effect (c : TutorContext) :
    (TutorCoordinator._create_response_state "advance_step" c).1.progression.current_step
        = c.progression.current_step + 1
    ∧ (TutorCoordinator._create_response_state "advance_step" c).1.iterations.step_interactions = 0
    ∧ (TutorCoordinator._create_response_state "advance_step" c).1.progression.current_checkpoint
        = c.progression.current_checkpoint
    ∧ (TutorCoordinator._create_response_state "advance_step" c).1.iterations.checkpoint_interactions
        = c.iterations.checkpoint_interactions
    ∧ (TutorCoordinator._create_response_state "advance_step" c).1.iterations.total_interactions
        = c.iterations.total_interactions
    ∧ (TutorCoordinator._create_response_state "advance_step" c).1.iterations.finished
        = c.iterations.finished
    ∧ (TutorCoordinator._create_response_state "advance_step" c).1.current_understanding
        = c.current_understanding :=
  ⟨rfl, rfl, rfl, rfl, rfl, rfl, rfl⟩

/-- C1: the first rule of determine_next_action dominates: whenever the main
question is answered or the checkpoint iteration counter has reached the
per-checkpoint maximum, the decision is advance_checkpoint when another
checkpoint exists and finish otherwise — in particular never advance_step,
whatever the guiding flag and step counter say. -/
theorem determine_next_action_main_rule (u : Understanding) (c : TutorContext)
    (h : u.main_question_answered = true
      ∨ c.max_checkpoint_iterations ≤ c.iterations.checkpoint_interactions) :
    ProgressionService.determine_next_action u c =
      if ProgressionService._has_next_checkpoint c then "advance_checkpoint" else "finish" := by
  have hcond : (u.main_question_answered
      || !(c.iterations.has_checkpoint_iterations_left c.max_checkpoint_iterations)) = true := by
    rcases h with h | h
    · simp [h]
    · have hl : c.iterations.has_checkpoint_iterations_left c.max_checkpoint_iterations = false := by
        simp [IterationState.has_checkpoint_iterations_left]
        omega
      simp [hl]
  unfold ProgressionService.determine_next_action
  simp [hcond]

/-- C1 witness: with both answered flags false but the checkpoint budget
exhausted (counter 6 = maximum 6) on a two-checkpoint curriculum, the
decision is advance_checkpoint. -/
theorem determine_next_action_main_rule_w :
    ProgressionService.determine_next_action
      { main_question_answered := false, guiding_question_answered := false } ctxBudget
      = "advance_checkpoint" := by
  have h := determine_next_action_main_rule
    { main_question_answered := false, guiding_question_answered := false } ctxBudget
    (Or.inr (by decide))
  rw [h]
  rfl

/-- C2: when the first rule does not fire (main question unanswered, budget
left) and the guiding question is answered or the step counter has reached
the per-step maximum, the decision is advance_step when another step exists
in the current checkpoint and continue_question otherwise — never
advance_checkpoint or finish. -/
theorem determine_next_action_step_rule (u : Understanding) (c : TutorContext)
    (h1 : u.main_question_answered = false)
    (h2 : c.iterations.checkpoint_interactions < c.max_checkpoint_iterations)
    (h3 : u.guiding_question_answered = true
      ∨ c.max_step_iterations ≤ c.iterations.step_interactions) :
    ProgressionService.determine_next_action u c =
      if ProgressionService._has_next_step c then "advance_step" else "continue_question" := by
  have hcp : c.iterations.has_checkpoint_iterations_left c.max_checkpoint_iterations = true := by
    simp [IterationState.has_checkpoint_iterations_left]
    omega
  have hcond : (u.guiding_question_answered
      || !(c.iterations.has_step_iterations_left c.max_step_iterations)) = true := by
    rcases h3 with h | h
    · simp [h]
    · have hl : c.iterations.has_step_iterations_left c.max_step_iterations = false := by
        simp [IterationState.has_step_iterations_left]
        omega
      simp [hl]
  unfold ProgressionService.determine_next_action
  simp [h1, hcp, hcond]

/-- C2 witness: guiding question answered on a fresh two-checkpoint session
whose first checkpoint has two steps: the decision is advance_step. -/
theorem determine_next_action_step_rule_w :
    ProgressionService.determine_next_action
      { main_question_answered := false, guiding_question_answered := true } ctxTwo
      = "advance_step" := by
  have h := determine_next_action_step_rule
    { main_question_answered := false, guiding_question_answered := true } ctxTwo
    rfl (by decide) (Or.inl rfl)
  rw [h]
  rfl

/-- C9: handle_goto_command with a target outside [1, number of checkpoints]
emits the error message and returns the session context exactly unchanged:
pointers, all iteration counters and the stored understanding included. -/
theorem handle_goto_out_of_range (n : Int) (c : TutorContext)
    (h : n < 1 ∨ (c.exercise.checkpoints.length : Int) < n) :
    TutorCoordinator.handle_goto_command n c = (c, true) := by
  unfold TutorCoordinator.handle_goto_command
  rw [if_pos]
  exact h

/-- C9 witness: /goto 5 on the three-checkpoint curriculum emits the error
and leaves the context untouched. -/
theorem handle_goto_out_of_range_w :
    TutorCoordinator.handle_goto_command 5 ctxThird = (ctxThird, true) :=
  handle_goto_out_of_range 5 ctxThird (Or.inr (by decide))

/-- C10: Understanding.empty has both answered flags false, the coordinator
substitutes exactly this value when the understanding call fails, and with it
determine_next_action can only leave the current question through budget
exhaustion: advance_checkpoint/finish force the checkpoint counter to its
maximum, advance_step forces the step counter to its maximum. -/
theorem empty_understanding_budget_only (c : TutorContext) :
    TutorCoordinator._evaluate_understanding none = Understanding.empty
    ∧ Understanding.empty.main_question_answered = false
    ∧ Understanding.empty.guiding_question_answered = false
    ∧ ((ProgressionService.determine_next_action Understanding.empty c = "advance_checkpoint"
          ∨ ProgressionService.determine_next_action Understanding.empty c = "finish")
        → c.max_checkpoint_iterations ≤ c.iterations.checkpoint_interactions)
    ∧ (ProgressionService.determine_next_action Understanding.empty c = "advance_step"
        → c.max_step_iterations ≤ c.iterations.step_interactions) := by
  refine ⟨rfl, rfl, rfl, ?_, ?_⟩
  · intro hres
    by_contra hge
    have hcp : c.iterations.has_checkpoint_iterations_left c.max_checkpoint_iterations = true := by
      simp [IterationState.has_checkpoint_iterations_left]
      omega
    unfold ProgressionService.determine_next_action at hres
    simp [Understanding.empty, hcp] at hres
    rcases hres with hres | hres <;>
      · split at hres
        · split at hres
          · exact absurd hres (by decide)
          · exact absurd hres (by decide)
        · exact absurd hres (by decide)
  · intro hres
    by_contra hge
    have hs : c.iterations.has_step_iterations_left c.max_step_iterations = true := by
      simp [IterationState.has_step_iterations_left]
      omega
    unfold ProgressionService.determine_next_action at hres
    simp [Understanding.empty, hs] at hres
    split at hres
    · split at hres
      · exact absurd hres (by decide)
      · exact absurd hres (by decide)
    · exact absurd hres (by decide)

end Grasp
